import Mathlib

/-!
Verification of the optimization scheduling engine of the DC_Energy_conservation
repository: a shallow embedding of the objective evaluation shared by the search
optimizers, the hard safety clamp, the per-device controller state machine, the
optimizer factory fallback, the critical-operation drain loop, and the historical
buffer maintenance, together with theorems settling the specification claims.

Numeric modelling: Python floats are modelled by ℚ, and `float('inf')` by the top
element of `WithTop ℚ`.
-/

namespace DCEnergy

/-- Objective values: a finite power figure or `float('inf')`. -/
abbrev Obj := WithTop ℚ

/-- `OptimizationState` enum from `optimization_module.py`. -/
inductive OptimizationState where
  | IDLE
  | RUNNING
  | RESETTING
  deriving DecidableEq, Repr

/-- `DataRecord` dataclass from `optimization_module.py` (one historical observation). -/
structure DataRecord where
  device_uid : String
  set_temp : ℤ
  set_humidity : ℤ
  final_temp : ℚ
  final_humidity : ℚ
  power : ℚ
  timestamp : ℚ
  cooling_mode : ℤ := 1
  is_optimization_result : Bool := false
  deriving DecidableEq, Repr

/-- The bound fields that `BaseOptimizer.__init__` reads out of
`security_boundary_config` (setting-range bounds and safe-observed-state bounds). -/
structure BaseOptimizer where
  min_temp : ℤ
  max_temp : ℤ
  min_humidity : ℤ
  max_humidity : ℤ
  max_safe_temp : ℚ
  min_safe_humidity : ℚ
  max_safe_humidity : ℚ
  deriving DecidableEq, Repr

/-- A `BaseOptimizer` holding the documented default bounds (16..30 °C, 30..70 %,
safe ceiling 28 °C, safe humidity band 30..70 %). -/
def defaultBounds : BaseOptimizer :=
  { min_temp := 16, max_temp := 30, min_humidity := 30, max_humidity := 70,
    max_safe_temp := 28, min_safe_humidity := 30, max_safe_humidity := 70 }

/-- `GridSearchOptimizer.__init__` additionally reads the grid steps and the
configurable historical weight (`optimization_module.historical_weight`, default 0.3). -/
structure GridSearchOptimizer extends BaseOptimizer where
  temp_step : ℤ := 1
  humidity_step : ℤ := 5
  historical_weight : ℚ := 3/10
  deriving DecidableEq, Repr

/-- `SimulatedAnnealingOptimizer.__init__`: annealing schedule parameters plus the
configurable historical weight. -/
structure SimulatedAnnealingOptimizer extends BaseOptimizer where
  initial_temperature : ℚ := 10
  min_temperature : ℚ := 1/2
  cooling_rate : ℚ := 85/100
  max_iterations : ℕ := 50
  iterations_per_temp : ℕ := 5
  temp_step : ℤ := 1
  humidity_step : ℤ := 5
  historical_weight : ℚ := 3/10
  deriving DecidableEq, Repr

/-- The tuple returned by `ACController.get_system_state`: singleton-or-empty lists
of the averaged room temperature, return temperature, power reading, averaged
humidity and return humidity (the `power_groups` component is ignored by every
consumer modelled here). -/
structure SystemState where
  current_temps : List ℚ
  return_temps : List ℚ
  power_values : List ℚ
  current_humidity : List ℚ
  return_humidity : List ℚ
  deriving DecidableEq, Repr

/-- A system state with no readings at all. -/
def emptySystemState : SystemState :=
  { current_temps := [], return_temps := [], power_values := [],
    current_humidity := [], return_humidity := [] }

/-- Match test of `BaseOptimizer.calculate_objective_from_historical`: the record's
setpoints lie within `temp_tolerance = 0.5` / `humidity_tolerance = 5.0` of the
candidate and the cooling mode agrees. -/
def recordMatches (set_temp set_humidity cooling_mode : ℤ) (d : DataRecord) : Bool :=
  |(d.set_temp : ℚ) - (set_temp : ℚ)| ≤ 1/2 &&
  |(d.set_humidity : ℚ) - (set_humidity : ℚ)| ≤ 5 &&
  d.cooling_mode == cooling_mode

/-- Safe-observed-state test of `calculate_objective_from_historical`: the measured
final temperature is at most the safe ceiling and the measured final humidity lies
in the safe band. -/
def recordSafe (b : BaseOptimizer) (d : DataRecord) : Bool :=
  d.final_temp ≤ b.max_safe_temp &&
  (b.min_safe_humidity ≤ d.final_humidity && d.final_humidity ≤ b.max_safe_humidity)

/-- Loop body of `calculate_objective_from_historical`: accumulate `(total_power, count)`
over the records that match the candidate and pass the safe-observed-state test. -/
def historicalStep (b : BaseOptimizer) (set_temp set_humidity cooling_mode : ℤ)
    (acc : ℚ × ℕ) (d : DataRecord) : ℚ × ℕ :=
  if recordMatches set_temp set_humidity cooling_mode d && recordSafe b d then
    (acc.1 + d.power, acc.2 + 1)
  else
    acc

/-- `BaseOptimizer.calculate_objective_from_historical`: the mean power of the
matching safe records, `0.0` when the buffer is empty or nothing matches. -/
def BaseOptimizer.calculate_objective_from_historical (b : BaseOptimizer)
    (historical_data : List DataRecord)
    (set_temp set_humidity : ℤ) (cooling_mode : ℤ := 1) : ℚ :=
  if historical_data.isEmpty then 0
  else
    let r := historical_data.foldl (historicalStep b set_temp set_humidity cooling_mode) (0, 0)
    if 0 < r.2 then r.1 / (r.2 : ℚ) else 0

/-- `BaseOptimizer.evaluate_params`. `sys` is the outcome of
`controller.get_system_state(current_data)`; an exception there is caught by the
surrounding `try` and scored `float('inf')`. -/
def BaseOptimizer.evaluate_params (b : BaseOptimizer) (historical_data : List DataRecord)
    (set_temp set_humidity cooling_mode : ℤ) (sys : Except Unit SystemState) : Obj :=
  match sys with
  | .error _ => ⊤
  | .ok st =>
    let historical_objective :=
      b.calculate_objective_from_historical historical_data set_temp set_humidity cooling_mode
    if (set_temp : ℚ) > b.max_safe_temp then ⊤
    else if ¬(b.min_safe_humidity ≤ (set_humidity : ℚ) ∧ (set_humidity : ℚ) ≤ b.max_safe_humidity) then ⊤
    else if 0 < historical_objective then
      let current_power := if st.power_values.isEmpty then 0 else st.power_values.sum
      (((7/10) * historical_objective + (3/10) * current_power : ℚ) : Obj)
    else
      let current_power := if st.power_values.isEmpty then 0 else st.power_values.sum
      if 0 < current_power then ((current_power * (12/10) : ℚ) : Obj)
      else ((10000 : ℚ) : Obj)

/-- `GridSearchOptimizer._evaluate_combination`. The final state is estimated by the
setpoints themselves; with no positive historical objective the fallback is the raw
current power when a reading exists, `float('inf')` otherwise. -/
def GridSearchOptimizer.evaluate_combination (g : GridSearchOptimizer)
    (historical_data : List DataRecord)
    (set_temp set_humidity cooling_mode : ℤ) (sys : Except Unit SystemState) : Obj :=
  match sys with
  | .error _ => ⊤
  | .ok st =>
    let historical_objective :=
      g.toBaseOptimizer.calculate_objective_from_historical
        historical_data set_temp set_humidity cooling_mode
    let final_temp_estimate := set_temp
    let final_humidity_estimate := set_humidity
    if (final_temp_estimate : ℚ) > g.max_safe_temp then ⊤
    else if ¬(g.min_safe_humidity ≤ (final_humidity_estimate : ℚ) ∧
              (final_humidity_estimate : ℚ) ≤ g.max_safe_humidity) then ⊤
    else if 0 < historical_objective then
      let real_time_objective := if st.power_values.isEmpty then 0 else st.power_values.sum
      (((1 - g.historical_weight) * real_time_objective +
        g.historical_weight * historical_objective : ℚ) : Obj)
    else if st.power_values.isEmpty then ⊤
    else ((st.power_values.sum : ℚ) : Obj)

/-- `SimulatedAnnealingOptimizer._evaluate_params`. Same shape as grid search except
the fallback requires a strictly positive current power. -/
def SimulatedAnnealingOptimizer.evaluate_params_sa (sa : SimulatedAnnealingOptimizer)
    (historical_data : List DataRecord)
    (set_temp set_humidity cooling_mode : ℤ) (sys : Except Unit SystemState) : Obj :=
  match sys with
  | .error _ => ⊤
  | .ok st =>
    let historical_objective :=
      sa.toBaseOptimizer.calculate_objective_from_historical
        historical_data set_temp set_humidity cooling_mode
    if (set_temp : ℚ) > sa.max_safe_temp then ⊤
    else if ¬(sa.min_safe_humidity ≤ (set_humidity : ℚ) ∧
              (set_humidity : ℚ) ≤ sa.max_safe_humidity) then ⊤
    else
      let real_time_objective := if st.power_values.isEmpty then 0 else st.power_values.sum
      if 0 < historical_objective then
        (((1 - sa.historical_weight) * real_time_objective +
          sa.historical_weight * historical_objective : ℚ) : Obj)
      else if 0 < real_time_objective then ((real_time_objective : ℚ) : Obj)
      else ⊤

/-! ## Safety clamp (`_enforce_safety_bounds`) -/

/-- The setpoint-bound fields of `security_boundary_config` that
`_enforce_safety_bounds` reads (already converted by `int(...)`). -/
structure SecurityBoundaryConfig where
  minimum_air_conditioner_setting_temperature : ℤ := 16
  maximum_air_conditioner_setting_temperature : ℤ := 30
  minimum_air_conditioner_setting_humidity : ℤ := 30
  maximum_air_conditioner_setting_humidity : ℤ := 70
  deriving DecidableEq, Repr

/-- The aggregated result dict handled by `_enforce_safety_bounds`: one setting per
air conditioner in each of the three lists. -/
structure OptimizationParams where
  air_conditioner_setting_temperature : List ℚ
  air_conditioner_setting_humidity : List ℚ
  air_conditioner_cooling_mode : List ℤ
  deriving DecidableEq, Repr

/-- Per-entry clamp of `_enforce_safety_bounds`: below the lower bound snaps to the
lower bound, above the upper bound snaps to the upper bound, otherwise unchanged. -/
def clampValue (lo hi : ℤ) (v : ℚ) : ℚ :=
  if v < (lo : ℚ) then (lo : ℚ)
  else if v > (hi : ℚ) then (hi : ℚ)
  else v

/-- `_enforce_safety_bounds` from `optimization_module.py`: clamp every setpoint
temperature and humidity to the configured hard bounds; cooling modes are copied. -/
def enforce_safety_bounds (params : OptimizationParams)
    (cfg : SecurityBoundaryConfig) : OptimizationParams :=
  let min_temp := cfg.minimum_air_conditioner_setting_temperature
  let max_temp := cfg.maximum_air_conditioner_setting_temperature
  let min_humidity := cfg.minimum_air_conditioner_setting_humidity
  let max_humidity := cfg.maximum_air_conditioner_setting_humidity
  { air_conditioner_setting_temperature :=
      params.air_conditioner_setting_temperature.map (clampValue min_temp max_temp),
    air_conditioner_setting_humidity :=
      params.air_conditioner_setting_humidity.map (clampValue min_humidity max_humidity),
    air_conditioner_cooling_mode := params.air_conditioner_cooling_mode }

/-! ## Controller state machine (`ACController` / `DynamicOptimizer`) -/

/-- A per-device optimizer result dict (`set_temp` / `set_humidity` / `cooling_mode`). -/
structure Params where
  set_temp : ℤ
  set_humidity : ℤ
  cooling_mode : ℤ
  deriving DecidableEq, Repr

/-- The observable shape of the `current_data` argument of
`DynamicOptimizer.start_optimization`: the two validation checks only ask whether
it is `None` and whether the DataFrame is empty. -/
structure DataFrame where
  isEmpty : Bool
  deriving DecidableEq, Repr

/-- The `ValueError`s raised by `start_optimization`'s input validation. -/
inductive StartError where
  | noneData
  | emptyData
  deriving DecidableEq, Repr

/-- Outcome of a `start_optimization` call that did not raise: the controller state
it left behind and whether a worker thread was spawned. -/
structure StartEffect where
  newState : OptimizationState
  spawned : Bool
  deriving DecidableEq, Repr

/-- `DynamicOptimizer.start_optimization`: raise on `None`/empty input; under the
state lock, refuse (no-op) unless the controller is `IDLE`, else transition to
`RUNNING` and spawn the worker thread. -/
def start_optimization (current_data : Option DataFrame)
    (state : OptimizationState) : Except StartError StartEffect :=
  match current_data with
  | none => .error .noneData
  | some df =>
    if df.isEmpty then .error .emptyData
    else if state ≠ OptimizationState.IDLE then .ok ⟨state, false⟩
    else .ok ⟨.RUNNING, true⟩

/-- The mutable `ACController` fields touched by `reset`. `activeThreadAlive` is
`some b` when an optimization thread is registered and `b` says whether it is
still alive. -/
structure ControllerState where
  state : OptimizationState
  stopEventSet : Bool
  activeThreadAlive : Option Bool
  previous_best_params : Option Params
  deriving DecidableEq, Repr

/-- Observable side effects performed by `ACController.reset`, in program order.
`joinThread t` is a bounded join with timeout `t` seconds. -/
inductive ResetAction where
  | setState (s : OptimizationState)
  | setStopEvent
  | joinThread (timeout : ℚ)
  | clearStopEvent
  | clearActiveThread
  deriving DecidableEq, Repr

/-- `ACController.reset`: a caller that observes `RESETTING` returns the cached
params untouched; otherwise the state is set to `RESETTING`, the stop flag raised,
the live worker joined for at most 30 s, the flag cleared and the state restored to
`IDLE`, returning `previous_best_params`. -/
def ACController.reset (c : ControllerState) : ControllerState × Option Params × List ResetAction :=
  if c.state = OptimizationState.RESETTING then
    (c, c.previous_best_params, [])
  else
    let c1 : ControllerState := { c with state := .RESETTING }
    let joinActions : List ResetAction :=
      match c1.activeThreadAlive with
      | some true => [.joinThread 30]
      | _ => []
    let previous_params := c1.previous_best_params
    let final : ControllerState :=
      { c1 with stopEventSet := false, state := .IDLE, activeThreadAlive := none }
    (final, previous_params,
      [.setState .RESETTING, .setStopEvent] ++ joinActions ++
        [.clearStopEvent, .setState .IDLE, .clearActiveThread])

/-! ## Bounded wait and zombie registry (`DynamicOptimizer.get_best_params`) -/

/-- Timing behaviour of the worker thread. `lifetime` is the wall-clock time after
the `get_best_params` call at which the thread would finish on its own (`none` =
never); `cancelDelay` is how long it takes to exit once the stop flag is raised
(`none` = it ignores cancellation). -/
structure WorkerThread where
  threadId : ℕ
  threadName : String
  lifetime : Option ℚ
  cancelDelay : Option ℚ
  deriving DecidableEq, Repr

/-- Wall-clock time spent in `Thread.join(timeout)` against a thread with the
given remaining lifetime. -/
def joinWait (lifetime : Option ℚ) (timeout : ℚ) : ℚ :=
  match lifetime with
  | none => timeout
  | some l => min l timeout

/-- Whether the thread is still alive `t` seconds in. -/
def aliveAfter (lifetime : Option ℚ) (t : ℚ) : Bool :=
  match lifetime with
  | none => true
  | some l => decide (t < l)

/-- Remaining lifetime, measured from the moment the stop flag is raised at time
`T`: the thread exits at the earlier of its natural finish and its cancellation
response. -/
def remainingAfterCancel (lifetime cancelDelay : Option ℚ) (T : ℚ) : Option ℚ :=
  match lifetime, cancelDelay with
  | none, none => none
  | none, some d => some d
  | some l, none => some (l - T)
  | some l, some d => some (min (l - T) d)

/-- One entry of the `_zombie_threads` registry
(`DynamicOptimizer._register_zombie_thread`). -/
structure ZombieInfo where
  thread_id : ℕ
  thread_name : String
  timestamp : ℚ
  algorithm : String
  deriving DecidableEq, Repr

/-- The fixed grace period of `DynamicOptimizer.get_best_params`. -/
def gracePeriod : ℚ := 5

/-- Result of a `get_best_params` call: the returned params, the wall-clock time it
blocked, the controller state it left and the zombie registry afterwards. -/
structure AwaitOutcome where
  result : Option Params
  elapsed : ℚ
  controller : ControllerState
  zombies : List ZombieInfo
  deriving DecidableEq, Repr

/-- `DynamicOptimizer.get_best_params(timeout)`: immediate return when no worker is
alive; otherwise a bounded join, then on timeout the stop flag is raised, a second
join runs for the fixed grace period, a still-alive thread is recorded in the
zombie registry, and the controller is forced back to `IDLE` with no result.
`optimizerBest` stands for `self._get_optimizer_result()`; `now` is the wall clock
used for the zombie timestamp; `algorithm` is the configured algorithm name. -/
def get_best_params (timeout : ℚ) (thread : Option WorkerThread)
    (optimizerBest : Option Params) (algorithm : String) (now : ℚ)
    (c : ControllerState) (zombies : List ZombieInfo) : AwaitOutcome :=
  match thread with
  | none => ⟨optimizerBest, 0, c, zombies⟩
  | some th =>
    if ¬ aliveAfter th.lifetime 0 then ⟨optimizerBest, 0, c, zombies⟩
    else
      let e1 := joinWait th.lifetime timeout
      if aliveAfter th.lifetime timeout then
        let c1 : ControllerState := { c with stopEventSet := true }
        let rem := remainingAfterCancel th.lifetime th.cancelDelay timeout
        let e2 := joinWait rem gracePeriod
        let zombies' :=
          if aliveAfter rem gracePeriod then
            zombies ++ [⟨th.threadId, th.threadName, now, algorithm⟩]
          else zombies
        ⟨none, e1 + e2, { c1 with state := .IDLE }, zombies'⟩
      else
        ⟨optimizerBest, e1, c, zombies⟩

/-! ## Optimizer factory (`OptimizerFactory.create_optimizer` and the fallback in
`DynamicOptimizer._create_optimizer_with_fallback`) -/

/-- Which optional-dependency optimizers imported successfully
(`_BAYESIAN_AVAILABLE`, `_GENETIC_AVAILABLE`, `_RL_AVAILABLE`). -/
structure FactoryAvailability where
  bayesian : Bool
  genetic : Bool
  rl : Bool
  deriving DecidableEq, Repr

/-- The closed set of optimizer classes the factory can instantiate. -/
inductive OptimizerKind where
  | gridSearch
  | randomSearch
  | bayesian
  | genetic
  | rl
  deriving DecidableEq, Repr

/-- `OptimizerFactory._build_optimizer_map`: grid and random search are always
present; the others only when their import succeeded. -/
def optimizerMap (av : FactoryAvailability) : List (String × OptimizerKind) :=
  [("grid_search", .gridSearch), ("random_search", .randomSearch)] ++
  (if av.bayesian then [("bayesian", .bayesian)] else []) ++
  (if av.genetic then [("genetic", .genetic)] else []) ++
  (if av.rl then [("reinforcement_learning", .rl), ("rl", .rl)] else [])

/-- The `ValueError`s raised by `OptimizerFactory.create_optimizer`. -/
inductive FactoryError where
  | unsupportedAlgorithm
  | constructionFailed
  deriving DecidableEq, Repr

/-- `algorithm.lower().strip()`, computed over the underlying character list. -/
def normalizeAlgorithm (s : String) : String :=
  ⟨(((s.data.map Char.toLower).dropWhile Char.isWhitespace).reverse.dropWhile
      Char.isWhitespace).reverse⟩

/-- `OptimizerFactory.create_optimizer`: normalise the name, reject names outside
the availability map, and wrap a failing constructor (`ctorFails`) in a
`ValueError`. -/
def create_optimizer (av : FactoryAvailability) (algorithm : String)
    (ctorFails : OptimizerKind → Bool) : Except FactoryError OptimizerKind :=
  let algorithm := normalizeAlgorithm algorithm
  match (optimizerMap av).lookup algorithm with
  | none => .error .unsupportedAlgorithm
  | some kind => if ctorFails kind then .error .constructionFailed else .ok kind

/-- `DynamicOptimizer._create_optimizer_with_fallback`: try the configured
algorithm; on `ValueError` retry once with the hard-coded `"bayesian"` — whose own
failure is not caught. -/
def create_optimizer_with_fallback (av : FactoryAvailability) (algorithm : String)
    (ctorFails : OptimizerKind → Bool) : Except FactoryError OptimizerKind :=
  match create_optimizer av algorithm ctorFails with
  | .ok opt => .ok opt
  | .error _ => create_optimizer av "bayesian" ctorFails

/-! ## Critical-operation drain (`utils/critical_operation.py`) -/

/-- Net effect of `critical_operation`'s scoped enter/exit pairs, as the counter
value `get_critical_operation_count` observes at the poll `i` seconds in: the
number of critical sections entered at time 0 whose exit delay has not yet
elapsed. -/
def counterAt (exitDelays : List ℕ) (t : ℕ) : ℕ :=
  (exitDelays.filter (fun d => t < d)).length

/-- Poll loop of `wait_for_critical_operations`: `rem` iterations left, current
iteration started `i` seconds in; each miss sleeps one second. -/
def waitDrainLoop (count : ℕ → ℕ) (i : ℕ) : ℕ → Bool
  | 0 => false
  | rem + 1 => if count i = 0 then true else waitDrainLoop count (i + 1) rem

/-- `wait_for_critical_operations(ctx, timeout)`: poll the counter once per second
for `timeout` iterations, returning whether it was observed at zero. -/
def wait_for_critical_operations (count : ℕ → ℕ) (timeout : ℕ) : Bool :=
  waitDrainLoop count 0 timeout

/-! ## Historical buffer maintenance (`ACController.add_historical_data`) -/

/-- One row of the normalised historical DataFrame, projected onto the columns
`add_historical_data` reads. `none` models a missing column or a NaN cell. -/
structure HistRow where
  set_temp : Option ℚ
  set_humidity : Option ℚ
  sensor_temps : List ℚ
  sensor_humidities : List ℚ
  return_temp : Option ℚ
  return_humidity : Option ℚ
  power : Option ℚ
  time : ℚ
  deriving DecidableEq, Repr

/-- `_mean_from_row`: the mean of the non-NaN readings, `None` when there are none. -/
def meanFromRow (values : List ℚ) : Option ℚ :=
  if values.isEmpty then none else some (values.sum / (values.length : ℚ))

/-- Python's `round` (half to even), as applied by `int(round(...))` to setpoints. -/
def pythonRound (q : ℚ) : ℤ :=
  let f := ⌊q⌋
  let frac := q - (f : ℚ)
  if frac < 1/2 then f
  else if 1/2 < frac then f + 1
  else if f % 2 = 0 then f else f + 1

/-- Loop body of `add_historical_data`: skip the row when either setpoint is NaN,
otherwise build the `DataRecord` (missing power stored as `0.0`, missing final
state falling back to the sensor average and then to `0.0`, setpoints rounded to
int). -/
def rowToRecord (device_uid : String) (r : HistRow) : Option DataRecord :=
  match r.set_temp, r.set_humidity with
  | some st, some sh =>
    let avg_temp := meanFromRow r.sensor_temps
    let avg_humidity := meanFromRow r.sensor_humidities
    let final_temp := r.return_temp.or avg_temp
    let final_humidity := r.return_humidity.or avg_humidity
    let power_value := r.power.getD 0
    some { device_uid := device_uid,
           set_temp := pythonRound st,
           set_humidity := pythonRound sh,
           final_temp := final_temp.getD 0,
           final_humidity := final_humidity.getD 0,
           power := power_value,
           timestamp := r.time,
           cooling_mode := 1,
           is_optimization_result := false }
  | _, _ => none

/-- `ACController._append_history`: append, then evict the oldest record once the
buffer exceeds `max_historical_records`. -/
def append_history (max_historical_records : ℕ)
    (historical_data : List DataRecord) (record : DataRecord) : List DataRecord :=
  let h := historical_data ++ [record]
  if max_historical_records < h.length then h.drop 1 else h

/-- `ACController.add_historical_data` (given an already-normalised frame): clear
the buffer, then append one record per valid row in row order. -/
def add_historical_data (device_uid : String) (max_historical_records : ℕ)
    (historical_data : List DataRecord) (rows : List HistRow) : List DataRecord :=
  let _ := historical_data
  let cleared : List DataRecord := []
  rows.foldl
    (fun acc r =>
      match rowToRecord device_uid r with
      | some record => append_history max_historical_records acc record
      | none => acc)
    cleared

/-! ## Example values used by concrete scenarios -/

/-- A historical observation at `(22 °C, 45 %, mode 1)` with a safe measured final
state and the given power draw. -/
def exampleRecord (p : ℚ) : DataRecord :=
  { device_uid := "ac1", set_temp := 22, set_humidity := 45, final_temp := 24,
    final_humidity := 50, power := p, timestamp := 0 }

/-- A grid-search optimizer over the default bounds with the default configured
historical weight 0.3. -/
def gridDefault : GridSearchOptimizer := { toBaseOptimizer := defaultBounds }

/-- A simulated-annealing optimizer over the default bounds with the default
configured historical weight 0.3. -/
def saDefault : SimulatedAnnealingOptimizer := { toBaseOptimizer := defaultBounds }

/-- The suffix of at most `n` elements: what remains after FIFO eviction down to
capacity `n`. -/
def keepLast {α : Type} (n : ℕ) (l : List α) : List α := l.drop (l.length - n)

/-! # Theorems -/

/-- Unsafe candidates hit one of the two leading `float('inf')` branches of
`BaseOptimizer.evaluate_params`. -/
lemma base_eval_top (b : BaseOptimizer) (hist : List DataRecord)
    (set_temp set_humidity cooling_mode : ℤ) (sys : Except Unit SystemState)
    (h : (set_temp : ℚ) > b.max_safe_temp ∨ (set_humidity : ℚ) < b.min_safe_humidity ∨
         b.max_safe_humidity < (set_humidity : ℚ)) :
    b.evaluate_params hist set_temp set_humidity cooling_mode sys = ⊤ := by
  cases sys with
  | error e => rfl
  | ok st =>
    by_cases h1 : (set_temp : ℚ) > b.max_safe_temp
    · simp [BaseOptimizer.evaluate_params, h1]
    · have h2 : ¬(b.min_safe_humidity ≤ (set_humidity : ℚ) ∧
          (set_humidity : ℚ) ≤ b.max_safe_humidity) := by
        rcases h with h | h | h
        · exact absurd h h1
        · exact fun hc => absurd hc.1 (not_le.mpr h)
        · exact fun hc => absurd hc.2 (not_le.mpr h)
      simp [BaseOptimizer.evaluate_params, h1, h2]

/-- Unsafe candidates hit one of the two leading `float('inf')` branches of
`GridSearchOptimizer._evaluate_combination`. -/
lemma grid_eval_top (g : GridSearchOptimizer) (hist : List DataRecord)
    (set_temp set_humidity cooling_mode : ℤ) (sys : Except Unit SystemState)
    (h : (set_temp : ℚ) > g.max_safe_temp ∨ (set_humidity : ℚ) < g.min_safe_humidity ∨
         g.max_safe_humidity < (set_humidity : ℚ)) :
    g.evaluate_combination hist set_temp set_humidity cooling_mode sys = ⊤ := by
  cases sys with
  | error e => rfl
  | ok st =>
    by_cases h1 : (set_temp : ℚ) > g.max_safe_temp
    · simp [GridSearchOptimizer.evaluate_combination, h1]
    · have h2 : ¬(g.min_safe_humidity ≤ (set_humidity : ℚ) ∧
          (set_humidity : ℚ) ≤ g.max_safe_humidity) := by
        rcases h with h | h | h
        · exact absurd h h1
        · exact fun hc => absurd hc.1 (not_le.mpr h)
        · exact fun hc => absurd hc.2 (not_le.mpr h)
      simp [GridSearchOptimizer.evaluate_combination, h1, h2]

/-- Unsafe candidates hit one of the two leading `float('inf')` branches of
`SimulatedAnnealingOptimizer._evaluate_params`. -/
lemma sa_eval_top (sa : SimulatedAnnealingOptimizer) (hist : List DataRecord)
    (set_temp set_humidity cooling_mode : ℤ) (sys : Except Unit SystemState)
    (h : (set_temp : ℚ) > sa.max_safe_temp ∨ (set_humidity : ℚ) < sa.min_safe_humidity ∨
         sa.max_safe_humidity < (set_humidity : ℚ)) :
    sa.evaluate_params_sa hist set_temp set_humidity cooling_mode sys = ⊤ := by
  cases sys with
  | error e => rfl
  | ok st =>
    by_cases h1 : (set_temp : ℚ) > sa.max_safe_temp
    · simp [SimulatedAnnealingOptimizer.evaluate_params_sa, h1]
    · have h2 : ¬(sa.min_safe_humidity ≤ (set_humidity : ℚ) ∧
          (set_humidity : ℚ) ≤ sa.max_safe_humidity) := by
        rcases h with h | h | h
        · exact absurd h h1
        · exact fun hc => absurd hc.1 (not_le.mpr h)
        · exact fun hc => absurd hc.2 (not_le.mpr h)
      simp [SimulatedAnnealingOptimizer.evaluate_params_sa, h1, h2]

/-- C1: in every optimizer variant's objective evaluation
(`BaseOptimizer.evaluate_params`, `GridSearchOptimizer._evaluate_combination`,
`SimulatedAnnealingOptimizer._evaluate_params`), a candidate whose setpoint
temperature exceeds `maximum_safe_indoor_temperature` or whose setpoint humidity
falls outside the safe humidity band scores `float('inf')`, for every historical
buffer and every current system state (power readings included). -/
theorem C1_unsafe_candidate_scores_infinity :
    (∀ (b : BaseOptimizer) (hist : List DataRecord) (st sH m : ℤ)
        (sys : Except Unit SystemState),
      ((st : ℚ) > b.max_safe_temp ∨ (sH : ℚ) < b.min_safe_humidity ∨
        b.max_safe_humidity < (sH : ℚ)) →
      b.evaluate_params hist st sH m sys = ⊤) ∧
    (∀ (g : GridSearchOptimizer) (hist : List DataRecord) (st sH m : ℤ)
        (sys : Except Unit SystemState),
      ((st : ℚ) > g.max_safe_temp ∨ (sH : ℚ) < g.min_safe_humidity ∨
        g.max_safe_humidity < (sH : ℚ)) →
      g.evaluate_combination hist st sH m sys = ⊤) ∧
    (∀ (sa : SimulatedAnnealingOptimizer) (hist : List DataRecord) (st sH m : ℤ)
        (sys : Except Unit SystemState),
      ((st : ℚ) > sa.max_safe_temp ∨ (sH : ℚ) < sa.min_safe_humidity ∨
        sa.max_safe_humidity < (sH : ℚ)) →
      sa.evaluate_params_sa hist st sH m sys = ⊤) :=
  ⟨fun b hist st sH m sys h => base_eval_top b hist st sH m sys h,
   fun g hist st sH m sys h => grid_eval_top g hist st sH m sys h,
   fun sa hist st sH m sys h => sa_eval_top sa hist st sH m sys h⟩

/-- C1 witness: candidate temperature 29 °C against the hard ceiling 28 °C scores
`float('inf')` in all three evaluators, here with an empty buffer and no power
readings. -/
theorem C1_witness :
    BaseOptimizer.evaluate_params defaultBounds
      [exampleRecord 100] 29 50 1 (.ok emptySystemState) = ⊤ ∧
    GridSearchOptimizer.evaluate_combination gridDefault
      [exampleRecord 100] 29 50 1 (.ok emptySystemState) = ⊤ ∧
    SimulatedAnnealingOptimizer.evaluate_params_sa saDefault
      [exampleRecord 100] 29 50 1 (.ok emptySystemState) = ⊤ :=
  ⟨C1_unsafe_candidate_scores_infinity.1 _ _ _ _ _ _ (Or.inl (by norm_num [defaultBounds])),
   C1_unsafe_candidate_scores_infinity.2.1 _ _ _ _ _ _
     (Or.inl (by norm_num [gridDefault, defaultBounds])),
   C1_unsafe_candidate_scores_infinity.2.2 _ _ _ _ _ _
     (Or.inl (by norm_num [saDefault, defaultBounds]))⟩

/-- The accumulation loop of `calculate_objective_from_historical` computes the sum
and count of the matching safe records. -/
lemma historicalStep_foldl (b : BaseOptimizer) (st sH m : ℤ)
    (hist : List DataRecord) (p : ℚ) (c : ℕ) :
    hist.foldl (historicalStep b st sH m) (p, c) =
      (p + ((hist.filter (fun d => recordMatches st sH m d && recordSafe b d)).map
              DataRecord.power).sum,
       c + (hist.filter (fun d => recordMatches st sH m d && recordSafe b d)).length) := by
  induction hist generalizing p c with
  | nil => simp
  | cons d t ih =>
    simp only [List.foldl_cons, historicalStep, List.filter_cons]
    by_cases h : (recordMatches st sH m d && recordSafe b d) = true
    · rw [if_pos h, if_pos h, ih]
      simp only [List.map_cons, List.sum_cons, List.length_cons]
      rw [Prod.mk.injEq]
      exact ⟨by ring, by omega⟩
    · rw [if_neg h, if_neg h, ih]

/-- C4: `calculate_objective_from_historical` returns the arithmetic mean of the
power values of exactly the records matching the candidate within the 0.5 °C / 5 %
tolerances with equal cooling mode and a safe measured final state, `0.0` when
nothing matches; in particular three matching observations with powers
`[100, 120, 110]` yield `110`. -/
theorem C4_historical_objective_is_mean_of_matches :
    (∀ (b : BaseOptimizer) (hist : List DataRecord) (st sH m : ℤ),
      b.calculate_objective_from_historical hist st sH m =
        (let ms := hist.filter (fun d => recordMatches st sH m d && recordSafe b d)
         if ms.isEmpty then 0 else ((ms.map DataRecord.power).sum / (ms.length : ℚ)))) ∧
    BaseOptimizer.calculate_objective_from_historical defaultBounds
      [exampleRecord 100, exampleRecord 120, exampleRecord 110] 22 45 1 = 110 ∧
    BaseOptimizer.calculate_objective_from_historical defaultBounds
      [exampleRecord 100] 25 45 1 = 0 := by
  refine ⟨?_,
    by norm_num [BaseOptimizer.calculate_objective_from_historical, historicalStep,
      recordMatches, recordSafe, exampleRecord, defaultBounds],
    by norm_num [BaseOptimizer.calculate_objective_from_historical, historicalStep,
      recordMatches, recordSafe, exampleRecord, defaultBounds]⟩
  intro b hist st sH m
  simp only [BaseOptimizer.calculate_objective_from_historical, historicalStep_foldl,
    zero_add, Nat.zero_add]
  by_cases hemp : hist.isEmpty
  · rw [if_pos hemp]
    rcases List.isEmpty_iff.mp hemp with rfl
    simp
  · rw [if_neg hemp]
    by_cases hlen :
        (hist.filter (fun d => recordMatches st sH m d && recordSafe b d)).length = 0
    · have : (hist.filter (fun d => recordMatches st sH m d && recordSafe b d)).isEmpty := by
        simpa [List.isEmpty_iff, List.length_eq_zero] using hlen
      simp [hlen, this]
    · have hpos : 0 < (hist.filter
          (fun d => recordMatches st sH m d && recordSafe b d)).length := Nat.pos_of_ne_zero hlen
      have : ¬(hist.filter (fun d => recordMatches st sH m d && recordSafe b d)).isEmpty := by
        simp [List.isEmpty_iff, List.length_eq_zero] at hlen ⊢
        exact hlen
      simp [hpos, this]

/-- C3 counterexample: one and the same situation — a single matching historical
record with power 100 and no current power reading — is scored 70 by
`BaseOptimizer.evaluate_params` (hard-coded 0.7/0.3 weights) but 30 by
`GridSearchOptimizer._evaluate_combination` under the configured historical weight
0.3, and no single weight `w` satisfies `w·100 + (1−w)·0` for both; so the claimed
uniform formula `w·historical + (1−w)·current` with a configurable `w` is false. -/
theorem C3_counterexample :
    BaseOptimizer.evaluate_params defaultBounds [exampleRecord 100] 22 45 1
      (.ok emptySystemState) = ((70 : ℚ) : Obj) ∧
    GridSearchOptimizer.evaluate_combination gridDefault [exampleRecord 100] 22 45 1
      (.ok emptySystemState) = ((30 : ℚ) : Obj) ∧
    ∀ w : ℚ, ¬(((70 : ℚ) : Obj) = ((w * 100 + (1 - w) * 0 : ℚ) : Obj) ∧
               ((30 : ℚ) : Obj) = ((w * 100 + (1 - w) * 0 : ℚ) : Obj)) := by
  refine ⟨?_, ?_, ?_⟩
  · norm_num [BaseOptimizer.evaluate_params,
      BaseOptimizer.calculate_objective_from_historical, historicalStep,
      recordMatches, recordSafe, exampleRecord, defaultBounds, emptySystemState]
  · norm_num [GridSearchOptimizer.evaluate_combination,
      BaseOptimizer.calculate_objective_from_historical, historicalStep,
      recordMatches, recordSafe, exampleRecord, defaultBounds, gridDefault, emptySystemState]
  · intro w hw
    rcases hw with ⟨h1, h2⟩
    rw [WithTop.coe_eq_coe] at h1 h2
    have : (70 : ℚ) = 30 := by rw [h1, h2]
    norm_num at this

/-- C3 amended: for safe candidates, `BaseOptimizer.evaluate_params` combines with
the fixed weights `0.7·historical + 0.3·current` whenever the historical objective
is positive, else returns `current·1.2` when the current power is positive and
`10000.0` otherwise; `GridSearchOptimizer._evaluate_combination` and
`SimulatedAnnealingOptimizer._evaluate_params` instead use the configurable
historical weight `w` as `(1−w)·current + w·historical`, and on a non-positive
historical objective fall back — with no uncertainty inflation — to the raw current
power (grid: when a power reading exists, else `+∞`; annealing: when it is
positive, else `+∞`). -/
theorem C3_objective_combination_amended :
    (∀ (b : BaseOptimizer) (hist : List DataRecord) (st sH m : ℤ) (s : SystemState),
      ¬((st : ℚ) > b.max_safe_temp) →
      (b.min_safe_humidity ≤ (sH : ℚ) ∧ (sH : ℚ) ≤ b.max_safe_humidity) →
      b.evaluate_params hist st sH m (.ok s) =
        (if 0 < b.calculate_objective_from_historical hist st sH m then
          (((7/10) * b.calculate_objective_from_historical hist st sH m +
            (3/10) * s.power_values.sum : ℚ) : Obj)
         else if 0 < s.power_values.sum then ((s.power_values.sum * (12/10) : ℚ) : Obj)
         else ((10000 : ℚ) : Obj))) ∧
    (∀ (g : GridSearchOptimizer) (hist : List DataRecord) (st sH m : ℤ) (s : SystemState),
      ¬((st : ℚ) > g.max_safe_temp) →
      (g.min_safe_humidity ≤ (sH : ℚ) ∧ (sH : ℚ) ≤ g.max_safe_humidity) →
      g.evaluate_combination hist st sH m (.ok s) =
        (if 0 < g.toBaseOptimizer.calculate_objective_from_historical hist st sH m then
          (((1 - g.historical_weight) * s.power_values.sum +
            g.historical_weight *
              g.toBaseOptimizer.calculate_objective_from_historical hist st sH m : ℚ) : Obj)
         else if s.power_values.isEmpty then ⊤
         else ((s.power_values.sum : ℚ) : Obj))) ∧
    (∀ (sa : SimulatedAnnealingOptimizer) (hist : List DataRecord) (st sH m : ℤ)
        (s : SystemState),
      ¬((st : ℚ) > sa.max_safe_temp) →
      (sa.min_safe_humidity ≤ (sH : ℚ) ∧ (sH : ℚ) ≤ sa.max_safe_humidity) →
      sa.evaluate_params_sa hist st sH m (.ok s) =
        (if 0 < sa.toBaseOptimizer.calculate_objective_from_historical hist st sH m then
          (((1 - sa.historical_weight) * s.power_values.sum +
            sa.historical_weight *
              sa.toBaseOptimizer.calculate_objective_from_historical hist st sH m : ℚ) : Obj)
         else if 0 < s.power_values.sum then ((s.power_values.sum : ℚ) : Obj)
         else ⊤)) := by
  refine ⟨?_, ?_, ?_⟩
  · intro b hist st sH m s h1 h2
    cases hl : s.power_values with
    | nil => simp [BaseOptimizer.evaluate_params, h1, h2, hl]
    | cons a t => simp [BaseOptimizer.evaluate_params, h1, h2, hl]
  · intro g hist st sH m s h1 h2
    cases hl : s.power_values with
    | nil => simp [GridSearchOptimizer.evaluate_combination, h1, h2, hl]
    | cons a t => simp [GridSearchOptimizer.evaluate_combination, h1, h2, hl]
  · intro sa hist st sH m s h1 h2
    cases hl : s.power_values with
    | nil => simp [SimulatedAnnealingOptimizer.evaluate_params_sa, h1, h2, hl]
    | cons a t => simp [SimulatedAnnealingOptimizer.evaluate_params_sa, h1, h2, hl]

/-- C3 witness: with one matching record of power 100 and a current power reading of
50, the base evaluator scores `0.7·100 + 0.3·50 = 85` while grid search and
simulated annealing with the configured weight 0.3 score `0.7·50 + 0.3·100 = 65`. -/
theorem C3_amended_witness :
    BaseOptimizer.evaluate_params defaultBounds [exampleRecord 100] 22 45 1
      (.ok { current_temps := [], return_temps := [], power_values := [50],
             current_humidity := [], return_humidity := [] }) = ((85 : ℚ) : Obj) ∧
    GridSearchOptimizer.evaluate_combination gridDefault [exampleRecord 100] 22 45 1
      (.ok { current_temps := [], return_temps := [], power_values := [50],
             current_humidity := [], return_humidity := [] }) = ((65 : ℚ) : Obj) ∧
    SimulatedAnnealingOptimizer.evaluate_params_sa saDefault [exampleRecord 100] 22 45 1
      (.ok { current_temps := [], return_temps := [], power_values := [50],
             current_humidity := [], return_humidity := [] }) = ((65 : ℚ) : Obj) := by
  refine ⟨?_, ?_, ?_⟩
  · rw [C3_objective_combination_amended.1 defaultBounds [exampleRecord 100] 22 45 1 _
      (by norm_num [defaultBounds]) (by norm_num [defaultBounds])]
    norm_num [BaseOptimizer.calculate_objective_from_historical, historicalStep,
      recordMatches, recordSafe, exampleRecord, defaultBounds]
  · rw [C3_objective_combination_amended.2.1 gridDefault [exampleRecord 100] 22 45 1 _
      (by norm_num [gridDefault, defaultBounds]) (by norm_num [gridDefault, defaultBounds])]
    norm_num [BaseOptimizer.calculate_objective_from_historical, historicalStep,
      recordMatches, recordSafe, exampleRecord, defaultBounds, gridDefault]
  · rw [C3_objective_combination_amended.2.2 saDefault [exampleRecord 100] 22 45 1 _
      (by norm_num [saDefault, defaultBounds]) (by norm_num [saDefault, defaultBounds])]
    norm_num [BaseOptimizer.calculate_objective_from_historical, historicalStep,
      recordMatches, recordSafe, exampleRecord, defaultBounds, saDefault]

/-- A clamped value lies within the (ordered) bounds. -/
lemma clampValue_bounds (lo hi : ℤ) (h : lo ≤ hi) (v : ℚ) :
    (lo : ℚ) ≤ clampValue lo hi v ∧ clampValue lo hi v ≤ (hi : ℚ) := by
  unfold clampValue
  split_ifs with h1 h2
  · exact ⟨le_refl _, by exact_mod_cast h⟩
  · exact ⟨by exact_mod_cast h, le_refl _⟩
  · exact ⟨not_lt.mp h1, not_lt.mp h2⟩

/-- The per-entry clamp is idempotent when the bounds are ordered. -/
lemma clampValue_idem (lo hi : ℤ) (h : lo ≤ hi) (v : ℚ) :
    clampValue lo hi (clampValue lo hi v) = clampValue lo hi v := by
  obtain ⟨h1, h2⟩ := clampValue_bounds lo hi h v
  generalize hx : clampValue lo hi v = x at h1 h2 ⊢
  unfold clampValue
  rw [if_neg (not_lt.mpr h1), if_neg (not_lt.mpr h2)]

/-- C2: with ordered hard bounds, `_enforce_safety_bounds` is idempotent
(`clamp(clamp(x)) = clamp(x)`) and every temperature/humidity entry of its output
lies within the configured hard setpoint bounds. -/
theorem C2_enforce_safety_bounds_idempotent (cfg : SecurityBoundaryConfig)
    (p : OptimizationParams)
    (hT : cfg.minimum_air_conditioner_setting_temperature ≤
          cfg.maximum_air_conditioner_setting_temperature)
    (hH : cfg.minimum_air_conditioner_setting_humidity ≤
          cfg.maximum_air_conditioner_setting_humidity) :
    enforce_safety_bounds (enforce_safety_bounds p cfg) cfg = enforce_safety_bounds p cfg ∧
    (∀ t ∈ (enforce_safety_bounds p cfg).air_conditioner_setting_temperature,
       (cfg.minimum_air_conditioner_setting_temperature : ℚ) ≤ t ∧
       t ≤ (cfg.maximum_air_conditioner_setting_temperature : ℚ)) ∧
    (∀ h ∈ (enforce_safety_bounds p cfg).air_conditioner_setting_humidity,
       (cfg.minimum_air_conditioner_setting_humidity : ℚ) ≤ h ∧
       h ≤ (cfg.maximum_air_conditioner_setting_humidity : ℚ)) := by
  refine ⟨?_, ?_, ?_⟩
  · simp only [enforce_safety_bounds, List.map_map, Function.comp_def,
      clampValue_idem _ _ hT, clampValue_idem _ _ hH]
  · intro t ht
    simp only [enforce_safety_bounds, List.mem_map] at ht
    obtain ⟨v, _, rfl⟩ := ht
    exact clampValue_bounds _ _ hT v
  · intro hval hmem
    simp only [enforce_safety_bounds, List.mem_map] at hmem
    obtain ⟨v, _, rfl⟩ := hmem
    exact clampValue_bounds _ _ hH v

/-- C2 witness: the default bounds clamp a concrete params dict idempotently and
into range. -/
theorem C2_witness :
    enforce_safety_bounds (enforce_safety_bounds ⟨[15, 35], [20, 80], [1, 0]⟩ {}) {} =
      enforce_safety_bounds ⟨[15, 35], [20, 80], [1, 0]⟩ {} ∧
    (∀ t ∈ (enforce_safety_bounds ⟨[15, 35], [20, 80], [1, 0]⟩
        {}).air_conditioner_setting_temperature,
       ((SecurityBoundaryConfig.mk 16 30 30 70).minimum_air_conditioner_setting_temperature : ℚ) ≤ t ∧
       t ≤ ((SecurityBoundaryConfig.mk 16 30 30 70).maximum_air_conditioner_setting_temperature : ℚ)) ∧
    (∀ h ∈ (enforce_safety_bounds ⟨[15, 35], [20, 80], [1, 0]⟩
        {}).air_conditioner_setting_humidity,
       ((SecurityBoundaryConfig.mk 16 30 30 70).minimum_air_conditioner_setting_humidity : ℚ) ≤ h ∧
       h ≤ ((SecurityBoundaryConfig.mk 16 30 30 70).maximum_air_conditioner_setting_humidity : ℚ)) :=
  C2_enforce_safety_bounds_idempotent {} ⟨[15, 35], [20, 80], [1, 0]⟩
    (by decide) (by decide)

/-- C5: `start_optimization` raises `ValueError` on `None` or empty input; outside
`IDLE` it is a no-op that neither spawns a thread nor changes state; from `IDLE`
the first call transitions to `RUNNING` and spawns, a second call is a no-op — so
two calls yield exactly one transition to `RUNNING`, and two consecutive calls can
never both spawn. -/
theorem C5_start_optimization_single_running :
    (∀ st, start_optimization none st = .error .noneData) ∧
    (∀ (df : DataFrame) st, df.isEmpty = true →
       start_optimization (some df) st = .error .emptyData) ∧
    (∀ (df : DataFrame) st, df.isEmpty = false → st ≠ .IDLE →
       start_optimization (some df) st = .ok ⟨st, false⟩) ∧
    (∀ df : DataFrame, df.isEmpty = false →
       start_optimization (some df) .IDLE = .ok ⟨.RUNNING, true⟩ ∧
       start_optimization (some df) .RUNNING = .ok ⟨.RUNNING, false⟩) ∧
    (∀ (df : DataFrame) s0 e1 e2,
       start_optimization (some df) s0 = .ok e1 →
       start_optimization (some df) e1.newState = .ok e2 →
       ¬(e1.spawned = true ∧ e2.spawned = true)) := by
  refine ⟨fun st => rfl, ?_, ?_, ?_, ?_⟩
  · intro df st h
    simp [start_optimization, h]
  · intro df st h hst
    simp [start_optimization, h, hst]
  · intro df h
    constructor <;> simp [start_optimization, h]
  · intro df s0 e1 e2 h1 h2 hc
    rcases df with ⟨_ | _⟩
    · cases s0 <;> simp_all [start_optimization] <;> (subst h1; simp_all) <;>
        (subst h2; simp_all)
    · simp_all [start_optimization]

/-- C5 witness: with non-empty data, the first call from `IDLE` spawns and moves to
`RUNNING`, the second is a spawn-free no-op; `None` data raises. -/
theorem C5_witness :
    (start_optimization (some ⟨false⟩) .IDLE = .ok ⟨.RUNNING, true⟩ ∧
     start_optimization (some ⟨false⟩) .RUNNING = .ok ⟨.RUNNING, false⟩) ∧
    start_optimization none .IDLE = .error .noneData ∧
    start_optimization (some ⟨true⟩) .IDLE = .error .emptyData :=
  ⟨C5_start_optimization_single_running.2.2.2.1 ⟨false⟩ rfl,
   C5_start_optimization_single_running.1 .IDLE,
   C5_start_optimization_single_running.2.1 ⟨true⟩ .IDLE rfl⟩

/-- C6: `reset` from any non-`RESETTING` state performs exactly the documented
sequence — set `RESETTING`, raise the stop flag, join a live worker with а bounded
30 s timeout, clear the flag, restore `IDLE` — and returns the cached
`previous_best_params`; a caller that observes `RESETTING` performs no actions,
changes nothing and returns the same cached params as the in-flight reset. -/
theorem C6_reset_behaviour :
    (∀ c : ControllerState, c.state ≠ .RESETTING →
      ACController.reset c =
        ({ c with state := .IDLE, stopEventSet := false, activeThreadAlive := none },
         c.previous_best_params,
         [.setState .RESETTING, .setStopEvent] ++
           (if c.activeThreadAlive = some true then [.joinThread 30] else []) ++
           [.clearStopEvent, .setState .IDLE, .clearActiveThread])) ∧
    (∀ c : ControllerState, c.state = .RESETTING →
      ACController.reset c = (c, c.previous_best_params, [])) ∧
    (∀ c : ControllerState, c.state ≠ .RESETTING →
      (ACController.reset { c with state := .RESETTING, stopEventSet := true }).2.1 =
        (ACController.reset c).2.1 ∧
      (ACController.reset { c with state := .RESETTING, stopEventSet := true }).2.2 = []) := by
  refine ⟨?_, ?_, ?_⟩
  · intro c h
    rcases hA : c.activeThreadAlive with _ | b
    · simp [ACController.reset, h, hA]
    · cases b <;> simp [ACController.reset, h, hA]
  · intro c h
    simp [ACController.reset, h]
  · intro c h
    refine ⟨?_, ?_⟩
    · simp [ACController.reset, h]
    · simp [ACController.reset]

/-- C6 witness: a concrete reset from `RUNNING` with a live worker and cached
params, and the collapsing second call. -/
theorem C6_witness :
    ACController.reset ⟨.RUNNING, false, some true, some ⟨24, 50, 1⟩⟩ =
      (⟨.IDLE, false, none, some ⟨24, 50, 1⟩⟩, some ⟨24, 50, 1⟩,
       [.setState .RESETTING, .setStopEvent, .joinThread 30,
        .clearStopEvent, .setState .IDLE, .clearActiveThread]) ∧
    ACController.reset ⟨.RESETTING, true, some true, some ⟨24, 50, 1⟩⟩ =
      (⟨.RESETTING, true, some true, some ⟨24, 50, 1⟩⟩, some ⟨24, 50, 1⟩, []) := by
  constructor
  · have h := C6_reset_behaviour.1 ⟨.RUNNING, false, some true, some ⟨24, 50, 1⟩⟩ (by decide)
    rw [h]
    rfl
  · exact C6_reset_behaviour.2.1 ⟨.RESETTING, true, some true, some ⟨24, 50, 1⟩⟩ rfl

/-- A bounded join never waits longer than its timeout. -/
lemma joinWait_le (lifetime : Option ℚ) (timeout : ℚ) : joinWait lifetime timeout ≤ timeout := by
  cases lifetime with
  | none => exact le_refl _
  | some l => exact min_le_right _ _

/-- C7: `get_best_params(timeout)` blocks at most `timeout + grace` seconds for any
worker-thread behaviour; and when the worker outlives the timeout and then also the
grace period after the stop flag is raised, the call registers exactly one zombie
entry (thread identity, timestamp, algorithm name), forces the controller back to
`IDLE`, and returns no result. -/
theorem C7_bounded_wait_and_zombie :
    (∀ (timeout : ℚ) (thread : Option WorkerThread) (best : Option Params)
        (algo : String) (now : ℚ) (c : ControllerState) (zs : List ZombieInfo),
      0 ≤ timeout →
      (get_best_params timeout thread best algo now c zs).elapsed ≤ timeout + gracePeriod) ∧
    (∀ (timeout : ℚ) (th : WorkerThread) (best : Option Params)
        (algo : String) (now : ℚ) (c : ControllerState) (zs : List ZombieInfo),
      aliveAfter th.lifetime 0 = true →
      aliveAfter th.lifetime timeout = true →
      aliveAfter (remainingAfterCancel th.lifetime th.cancelDelay timeout) gracePeriod = true →
      get_best_params timeout (some th) best algo now c zs =
        ⟨none,
         joinWait th.lifetime timeout +
           joinWait (remainingAfterCancel th.lifetime th.cancelDelay timeout) gracePeriod,
         { c with stopEventSet := true, state := .IDLE },
         zs ++ [⟨th.threadId, th.threadName, now, algo⟩]⟩) := by
  constructor
  · intro timeout thread best algo now c zs hT
    have hg : (0 : ℚ) ≤ gracePeriod := by norm_num [gracePeriod]
    cases thread with
    | none =>
      simp only [get_best_params]
      linarith
    | some th =>
      simp only [get_best_params]
      by_cases h0 : aliveAfter th.lifetime 0 = true
      · rw [if_neg (not_not_intro h0)]
        by_cases hT2 : aliveAfter th.lifetime timeout = true
        · rw [if_pos hT2]
          have e1 := joinWait_le th.lifetime timeout
          have e2 := joinWait_le (remainingAfterCancel th.lifetime th.cancelDelay timeout)
            gracePeriod
          dsimp only
          linarith
        · rw [if_neg hT2]
          have e1 := joinWait_le th.lifetime timeout
          dsimp only
          linarith
      · rw [if_pos h0]
        dsimp only
        linarith
  · intro timeout th best algo now c zs h0 hT hG
    simp only [get_best_params, if_pos hT, if_pos hG]
    rw [if_neg (not_not_intro h0)]

/-- C7 witness: a worker that ignores cancellation entirely, awaited with
`timeout = 1/10`: the call blocks `1/10 + 5` seconds, returns nothing, resets the
controller to `IDLE` and records one zombie entry. -/
theorem C7_witness :
    get_best_params (1/10) (some ⟨7, "opt-thread", none, none⟩) (some ⟨24, 50, 1⟩)
        "grid_search" 1000 ⟨.RUNNING, false, some true, none⟩ [] =
      ⟨none, 1/10 + 5, ⟨.IDLE, true, some true, none⟩,
       [⟨7, "opt-thread", 1000, "grid_search"⟩]⟩ ∧
    (get_best_params (1/10) (some ⟨7, "opt-thread", none, none⟩) (some ⟨24, 50, 1⟩)
        "grid_search" 1000 ⟨.RUNNING, false, some true, none⟩ []).elapsed ≤ 1/10 + gracePeriod := by
  constructor
  · have h := C7_bounded_wait_and_zombie.2 (1/10) ⟨7, "opt-thread", none, none⟩
      (some ⟨24, 50, 1⟩) "grid_search" 1000 ⟨.RUNNING, false, some true, none⟩ [] rfl rfl rfl
    rw [h]
    rfl
  · exact C7_bounded_wait_and_zombie.1 (1/10) (some ⟨7, "opt-thread", none, none⟩)
      (some ⟨24, 50, 1⟩) "grid_search" 1000 ⟨.RUNNING, false, some true, none⟩ []
      (by norm_num)

/-- C8 counterexample: with the optional-dependency optimizers unavailable, a
configured algorithm outside the map (`"simulated_annealing"` — the annealing
optimizer is not registered in the factory) makes both the first attempt and the
hard-coded `"bayesian"` retry raise, so `DynamicOptimizer` construction fails
instead of falling back to the always-available grid/random search. -/
theorem C8_counterexample :
    create_optimizer_with_fallback ⟨false, false, false⟩ "simulated_annealing"
      (fun _ => false) = .error .unsupportedAlgorithm ∧
    create_optimizer ⟨false, false, false⟩ "grid_search" (fun _ => false) =
      .ok .gridSearch := by
  constructor
  · rfl
  · rfl

/-- C8 amended: when constructing the configured algorithm raises `ValueError`,
`_create_optimizer_with_fallback` retries with the hard-coded `"bayesian"` — not
with grid or random search — so construction succeeds exactly when the Bayesian
optimizer is importable and constructible; when it is not importable, the retry
itself raises and startup fails. -/
theorem C8_fallback_is_bayesian :
    (∀ (av : FactoryAvailability) (alg : String) (f : OptimizerKind → Bool)
        (e : FactoryError),
      create_optimizer av alg f = .error e →
      create_optimizer_with_fallback av alg f = create_optimizer av "bayesian" f) ∧
    (∀ (av : FactoryAvailability) (alg : String) (f : OptimizerKind → Bool)
        (e : FactoryError),
      av.bayesian = true → f .bayesian = false →
      create_optimizer av alg f = .error e →
      create_optimizer_with_fallback av alg f = .ok .bayesian) ∧
    (∀ (av : FactoryAvailability) (f : OptimizerKind → Bool),
      av.bayesian = false →
      create_optimizer av "bayesian" f = .error .unsupportedAlgorithm) := by
  refine ⟨?_, ?_, ?_⟩
  · intro av alg f e h
    simp [create_optimizer_with_fallback, h]
  · intro av alg f e hb hf h
    rcases av with ⟨_, g, r⟩
    cases hb
    simp only [create_optimizer_with_fallback, h]
    cases g <;> cases r <;>
      simp [create_optimizer, optimizerMap, List.lookup, normalizeAlgorithm, hf]
  · intro av f hb
    rcases av with ⟨_, g, r⟩
    cases hb
    cases g <;> cases r <;>
      simp [create_optimizer, optimizerMap, List.lookup, normalizeAlgorithm]

/-- C8 witness: with Bayesian importable and constructible, an unknown configured
algorithm falls back to the Bayesian optimizer. -/
theorem C8_witness :
    create_optimizer_with_fallback ⟨true, false, false⟩ "simulated_annealing"
      (fun _ => false) = .ok .bayesian :=
  C8_fallback_is_bayesian.2.1 ⟨true, false, false⟩ "simulated_annealing"
    (fun _ => false) .unsupportedAlgorithm rfl rfl rfl

/-- The poll loop succeeds exactly when some remaining poll observes the counter at
zero. -/
lemma waitDrainLoop_true_iff (count : ℕ → ℕ) (i rem : ℕ) :
    waitDrainLoop count i rem = true ↔ ∃ j, j < rem ∧ count (i + j) = 0 := by
  induction rem generalizing i with
  | zero => simp [waitDrainLoop]
  | succ n ih =>
    simp only [waitDrainLoop]
    by_cases h : count i = 0
    · simp only [h, if_true]
      exact iff_of_true trivial ⟨0, Nat.succ_pos n, by simpa using h⟩
    · rw [if_neg h, ih (i + 1)]
      constructor
      · rintro ⟨j, hj, hc⟩
        refine ⟨j + 1, by omega, ?_⟩
        rwa [show i + (j + 1) = i + 1 + j by omega]
      · rintro ⟨j, hj, hc⟩
        cases j with
        | zero => exact absurd (by simpa using hc) h
        | succ k =>
          refine ⟨k, by omega, ?_⟩
          rwa [show i + 1 + k = i + (k + 1) by omega]

/-- C9 counterexample: one critical section entered at time 0 and exited at second
1 (maximum exit delay 1), polled with `timeout = 1`: the only poll happens at
second 0 and sees the counter at 1, so the call returns `False` even though the
counter reaches zero within the timeout (at second 1) and `timeout ≥ max_exit_delay`. -/
theorem C9_counterexample :
    wait_for_critical_operations (counterAt [1]) 1 = false ∧ counterAt [1] 1 = 0 := by
  constructor
  · rfl
  · rfl

/-- C9 amended: `wait_for_critical_operations` returns `True` iff one of its
once-per-second polls — at seconds `0 .. timeout−1` — observes the counter at
zero; with staggered exits it therefore returns `True` whenever every exit delay is
strictly below the timeout, while `timeout ≤` some exit delay forces `False`, the
counter moreover still being positive at the moment of return whenever the timeout
is strictly below that exit delay. -/
theorem C9_wait_for_drain :
    (∀ (count : ℕ → ℕ) (timeout : ℕ),
      wait_for_critical_operations count timeout = true ↔
        ∃ i, i < timeout ∧ count i = 0) ∧
    (∀ (exitDelays : List ℕ) (timeout : ℕ),
      0 < timeout → (∀ d ∈ exitDelays, d < timeout) →
      wait_for_critical_operations (counterAt exitDelays) timeout = true) ∧
    (∀ (exitDelays : List ℕ) (timeout d : ℕ),
      d ∈ exitDelays → timeout ≤ d →
      wait_for_critical_operations (counterAt exitDelays) timeout = false ∧
      (timeout < d → 0 < counterAt exitDelays timeout)) := by
  refine ⟨?_, ?_, ?_⟩
  · intro count timeout
    simpa using waitDrainLoop_true_iff count 0 timeout
  · intro exitDelays timeout h0 hall
    rw [wait_for_critical_operations, waitDrainLoop_true_iff]
    refine ⟨timeout - 1, by omega, ?_⟩
    simp only [Nat.zero_add, counterAt, List.length_eq_zero, List.filter_eq_nil_iff]
    intro d hd
    have := hall d hd
    simp only [decide_eq_true_eq]
    omega
  · intro exitDelays timeout d hd ht
    constructor
    · rw [wait_for_critical_operations, Bool.eq_false_iff]
      intro hw
      obtain ⟨j, hj, hc⟩ := (waitDrainLoop_true_iff (counterAt exitDelays) 0 timeout).mp hw
      rw [Nat.zero_add] at hc
      have hmem : d ∈ exitDelays.filter (fun x => decide (j < x)) :=
        List.mem_filter.mpr ⟨hd, by simpa using (by omega : j < d)⟩
      have : 0 < counterAt exitDelays j :=
        List.length_pos.mpr (List.ne_nil_of_mem hmem)
      omega
    · intro hlt
      have hmem : d ∈ exitDelays.filter (fun x => decide (timeout < x)) :=
        List.mem_filter.mpr ⟨hd, by simpa using hlt⟩
      exact List.length_pos.mpr (List.ne_nil_of_mem hmem)

/-- C9 witness: two critical sections exiting at seconds 1 and 2 drain for
`timeout = 3` polls; one exiting at second 5 makes a `timeout = 3` call return
`False` with the counter still at 1 at the moment of return. -/
theorem C9_witness :
    wait_for_critical_operations (counterAt [1, 2]) 3 = true ∧
    (wait_for_critical_operations (counterAt [5]) 3 = false ∧
     (3 < 5 → 0 < counterAt [5] 3)) :=
  ⟨C9_wait_for_drain.2.1 [1, 2] 3 (by decide) (by decide),
   C9_wait_for_drain.2.2 [5] 3 5 (by decide) (by decide)⟩

/-- `_append_history` applied to a buffer within capacity keeps the suffix of
capacity length. -/
lemma append_history_keepLast (maxR : ℕ) (acc : List DataRecord) (r : DataRecord)
    (h : acc.length ≤ maxR) :
    append_history maxR acc r = keepLast maxR (acc ++ [r]) := by
  unfold append_history keepLast
  by_cases hlen : maxR < (acc ++ [r]).length
  · rw [if_pos hlen]
    simp only [List.length_append, List.length_cons, List.length_nil] at hlen ⊢
    rw [show acc.length + (0 + 1) - maxR = 1 by omega]
  · rw [if_neg hlen]
    simp only [List.length_append, List.length_cons, List.length_nil] at hlen ⊢
    rw [show acc.length + (0 + 1) - maxR = 0 by omega, List.drop_zero]

/-- `keepLast` never exceeds its capacity. -/
lemma keepLast_length {α : Type} (n : ℕ) (l : List α) : (keepLast n l).length ≤ n := by
  simp only [keepLast, List.length_drop]
  omega

/-- Keeping the last `n` of a kept prefix and new elements is keeping the last `n`
of the whole. -/
lemma keepLast_append {α : Type} (n : ℕ) (l t : List α) :
    keepLast n (keepLast n l ++ t) = keepLast n (l ++ t) := by
  unfold keepLast
  rw [← List.drop_append_of_le_length (by omega : l.length - n ≤ l.length),
    List.drop_drop]
  congr 1
  simp only [List.length_append, List.length_drop]
  omega

/-- Folding `_append_history` over new records from a within-capacity buffer keeps
the suffix of capacity length. -/
lemma foldl_append_history (maxR : ℕ) (recs : List DataRecord) :
    ∀ acc : List DataRecord, acc.length ≤ maxR →
      recs.foldl (append_history maxR) acc = keepLast maxR (acc ++ recs) := by
  induction recs with
  | nil =>
    intro acc h
    simp [keepLast, Nat.sub_eq_zero_of_le h]
  | cons r t ih =>
    intro acc h
    simp only [List.foldl_cons]
    rw [append_history_keepLast maxR acc r h,
      ih _ (keepLast_length maxR (acc ++ [r])), keepLast_append]
    simp

/-- `add_historical_data` equals the capped suffix of the per-row conversions. -/
lemma add_historical_data_eq (uid : String) (maxR : ℕ) (hist : List DataRecord)
    (rows : List HistRow) :
    add_historical_data uid maxR hist rows =
      keepLast maxR (rows.filterMap (rowToRecord uid)) := by
  unfold add_historical_data
  have hfold : ∀ (rs : List HistRow) (acc : List DataRecord),
      rs.foldl
        (fun acc r =>
          match rowToRecord uid r with
          | some record => append_history maxR acc record
          | none => acc) acc =
      (rs.filterMap (rowToRecord uid)).foldl (append_history maxR) acc := by
    intro rs
    induction rs with
    | nil => intro acc; rfl
    | cons r t ih =>
      intro acc
      cases hr : rowToRecord uid r with
      | none => simp [hr, ih]
      | some record => simp [hr, ih]
  rw [hfold]
  simpa using foldl_append_history maxR (rows.filterMap (rowToRecord uid)) []
    (by simp)

/-- C10: `add_historical_data` replaces the buffer (the prior contents never
influence the result), inserts one record per row in row order — skipping exactly
the rows with a missing setpoint temperature or humidity, storing a missing power
as `0.0` and the setpoints as rounded integers — and keeps only the newest
`max_historical_records` records, evicting the oldest first. -/
theorem C10_add_historical_data_replaces_and_caps :
    (∀ (uid : String) (maxR : ℕ) (h1 h2 : List DataRecord) (rows : List HistRow),
      add_historical_data uid maxR h1 rows = add_historical_data uid maxR h2 rows) ∧
    (∀ (uid : String) (maxR : ℕ) (h : List DataRecord) (rows : List HistRow),
      add_historical_data uid maxR h rows =
        keepLast maxR (rows.filterMap (rowToRecord uid))) ∧
    (∀ (uid : String) (maxR : ℕ) (h : List DataRecord) (rows : List HistRow),
      (add_historical_data uid maxR h rows).length ≤ maxR) ∧
    (∀ (uid : String) (r : HistRow),
      rowToRecord uid r = none ↔ (r.set_temp = none ∨ r.set_humidity = none)) ∧
    (∀ (uid : String) (r : HistRow) (st sh : ℚ),
      r.set_temp = some st → r.set_humidity = some sh →
      ∃ rec, rowToRecord uid r = some rec ∧ rec.power = r.power.getD 0 ∧
        rec.set_temp = pythonRound st ∧ rec.set_humidity = pythonRound sh) := by
  refine ⟨?_, ?_, ?_, ?_, ?_⟩
  · intro uid maxR h1 h2 rows
    rw [add_historical_data_eq, add_historical_data_eq]
  · intro uid maxR h rows
    exact add_historical_data_eq uid maxR h rows
  · intro uid maxR h rows
    rw [add_historical_data_eq]
    exact keepLast_length _ _
  · intro uid r
    rcases r with ⟨st, sh, stemps, shums, rt, rh, pw, tm⟩
    cases st <;> cases sh <;> simp [rowToRecord]
  · intro uid r st sh hst hsh
    rcases r with ⟨st', sh', stemps, shums, rt, rh, pw, tm⟩
    simp only at hst hsh
    subst hst
    subst hsh
    exact ⟨_, rfl, rfl, rfl, rfl⟩

/-- C10 witness: a row with both setpoints present and a missing power reading is
stored with power `0.0` and banker-rounded integer setpoints. -/
theorem C10_witness :
    ∃ rec, rowToRecord "ac1" ⟨some (45/2), some 45, [], [], none, none, none, 7⟩ =
        some rec ∧
      rec.power = (none : Option ℚ).getD 0 ∧
      rec.set_temp = pythonRound (45/2) ∧ rec.set_humidity = pythonRound 45 :=
  C10_add_historical_data_replaces_and_caps.2.2.2.2 "ac1"
    ⟨some (45/2), some 45, [], [], none, none, none, 7⟩ (45/2) 45 rfl rfl

end DCEnergy
